import Mathlib

/-!
# Shallow embedding of the dragonshell interpreter (src/main.c)

This file models the command-execution and job-control engine of the
`unix-shell` repository.  The source is a single C file; every definition
below cites the lines of `src/main.c` it translates.  Child processes are
modelled by the pure function describing what the child does between `fork`
returning 0 and either `execvp` replacing its image or `exit` ending it;
the parent's side is modelled as a state transformer over the interpreter's
global variables, with the OS-dependent outcomes (`open`, `execvp`, `chdir`,
`fork` pids, `getrusage` readings) supplied as parameters.
-/

set_option autoImplicit false

namespace Dragonshell

/-- The OS services the shell invokes, as oracle functions.  `openWrite f m`
models `open(f, O_WRONLY | O_CREAT | O_TRUNC, m)` (main.c line 369),
`openRead f` models `open(f, O_RDONLY)` (line 389); each yields a descriptor
or `none` on failure.  `execOk p` tells whether `execvp(p, argv)` succeeds in
replacing the image.  `chdir cwd p` gives the working directory after a
successful `chdir(p)` issued from `cwd`, or `none` when `chdir` fails. -/
structure OS where
  openWrite : String → Nat → Option Nat
  openRead : String → Option Nat
  execOk : String → Bool
  chdir : String → String → Option String

/-- Index of the first element equal to `op` in a null-terminated argument
vector, mirroring `for (int i = 0; args[i] != NULL; i++) if (strcmp(args[i],
op) == 0)` (main.c lines 367-368, 387-388, 443-445). -/
def firstIdx (op : String) : List String → Option Nat
  | [] => none
  | a :: rest => if a = op then some 0 else (firstIdx op rest).map (· + 1)

/-- Output-redirection scan run in the child (main.c lines 365-383): find the
first `>` token; `open(args[i+1], O_WRONLY|O_CREAT|O_TRUNC, 0644)`; if the
open fails — including `args[i+1]` being the vector's NULL terminator, which
makes `open` fail with `EFAULT` — the child prints an error and exits, which
is the `.error` case; on success `args[i] = NULL` cuts the vector at `i`. -/
def resolveOut (os : OS) (args : List String) :
    Except Unit (List String × Option Nat) :=
  match firstIdx ">" args with
  | none => .ok (args, none)
  | some i =>
    match args[i + 1]? with
    | none => .error ()
    | some f =>
      match os.openWrite f 0o644 with
      | none => .error ()
      | some fd => .ok (args.take i, some fd)

/-- Input-redirection scan run in the child (main.c lines 385-403): the same
shape as `resolveOut` with `<` and `open(args[i+1], O_RDONLY)`. -/
def resolveIn (os : OS) (args : List String) :
    Except Unit (List String × Option Nat) :=
  match firstIdx "<" args with
  | none => .ok (args, none)
  | some i =>
    match args[i + 1]? with
    | none => .error ()
    | some f =>
      match os.openRead f with
      | none => .error ()
      | some fd => .ok (args.take i, some fd)

/-- Both redirection scans in the order the child runs them (output first,
lines 365-383, then input on the possibly already cut vector, lines 385-403).
Yields the final argument vector and the descriptors bound onto stdin/stdout
(`none` = not redirected). -/
def childResolve (os : OS) (args : List String) :
    Except Unit (List String × Option Nat × Option Nat) :=
  match resolveOut os args with
  | .error e => .error e
  | .ok (args1, outfd) =>
    match resolveIn os args1 with
    | .error e => .error e
    | .ok (args2, infd) => .ok (args2, infd, outfd)

/-- Outcome of a forked child: either it called `exit status` after printing
`errs` via `perror`, or `execvp` replaced its image with program `argv.head`
run on `argv`, with stdin/stdout bound to the given descriptors. -/
inductive ChildOutcome where
  | exited (status : Nat) (errs : List String)
  | replaced (argv : List String) (infd outfd : Option Nat)
deriving DecidableEq, Repr

/-- The whole child branch of `execute_command` (main.c lines 362-409):
resolve redirections (exiting with `EXIT_FAILURE` = 1 after
`perror("dragonshell")` on any open failure), then `execvp(args[0], args)`;
a failed `execvp` — including `args[0]` being NULL after truncation — again
prints `dragonshell` and exits 1. -/
def childExec (os : OS) (args : List String) : ChildOutcome :=
  match childResolve os args with
  | .error _ => .exited 1 ["dragonshell"]
  | .ok (argv, infd, outfd) =>
    match argv.head? with
    | none => .exited 1 ["dragonshell"]
    | some prog =>
      if os.execOk prog then .replaced argv infd outfd
      else .exited 1 ["dragonshell"]

/-- The interpreter's global mutable state: `child_pid` (main.c line 199,
initialised to -1 and read by the signal handlers), the two running CPU-time
totals (lines 29-30), the background-pid array of capacity `MAX_BG_PROC = 1`
(line 27, initialised to `[-1]`) with its counter (line 28), and the working
directory the process-wide `chdir` acts on. -/
structure ShellState where
  cwd : String
  child_pid : Int
  total_user_time : Int
  total_sys_time : Int
  bg_processes : List Int
  bg_count : Int
deriving DecidableEq, Repr

/-- The state at interpreter start-up (main.c lines 27-30 and 199). -/
def initState (cwd : String) : ShellState :=
  { cwd := cwd, child_pid := -1, total_user_time := 0, total_sys_time := 0,
    bg_processes := [-1], bg_count := 0 }

/-- What a signal handler ends up doing. -/
inductive SigAction where
  | killGroup (target : Int) (sig : Nat)
  | prompt
deriving DecidableEq, Repr

/-- `sigint_handler` (main.c lines 212-223): when `child_pid != -1`, SIGINT
(= 2) is sent to `-child_pid`, i.e. to the child's process group; otherwise a
fresh `dragonshell > ` prompt is printed. -/
def sigint_handler (s : ShellState) : SigAction :=
  if s.child_pid ≠ -1 then .killGroup (-s.child_pid) 2 else .prompt

/-- Parent side of `execute_command` (main.c lines 410-426); the `pid == 0`
branch is `childExec`.  `pid` is what `fork` returned; `ru_u`/`ru_s` are the
second counts `getrusage(RUSAGE_CHILDREN, ..)` reports after the wait.
Returns the new state, the pids passed to `waitpid`, and the printed lines.
Foreground: `waitpid(pid, NULL, 0)` then the totals absorb the usage reading.
Background: only `"PID %d is sent to background"` is printed.  `pid < 0` is
the fork-failure branch (`perror("dragonshell")`). -/
def execute_command (s : ShellState) (pid : Int) (background : Bool)
    (ru_u ru_s : Int) : ShellState × List Int × List String :=
  if 0 < pid then
    if background then
      (s, [], ["PID " ++ toString pid ++ " is sent to background"])
    else
      ({ s with total_user_time := s.total_user_time + ru_u,
                total_sys_time := s.total_sys_time + ru_s }, [pid], [])
  else
    (s, [], ["dragonshell"])

/-- `is_background_process` (main.c lines 441-452): the first `&` anywhere in
the vector is replaced by NULL — cutting the vector there — and the command is
marked background; with no `&` the vector is unchanged. -/
def is_background_process (args : List String) : List String × Bool :=
  match firstIdx "&" args with
  | some i => (args.take i, true)
  | none => (args, false)

/-- `exit_shell` (main.c lines 175-197): fold a final `getrusage` reading into
the totals, print the two time lines, and send SIGTERM to every occupied
background slot (`bg_processes[i] != -1`) before `exit(0)`.  Returns the
printed lines and the list of pids signalled. -/
def exit_shell (s : ShellState) (ru_u ru_s : Int) : List String × List Int :=
  (["User time: " ++ toString (s.total_user_time + ru_u) ++ " seconds",
    "Sys time: " ++ toString (s.total_sys_time + ru_s) ++ " seconds"],
   s.bg_processes.filter (fun p => p ≠ -1))

/-- `cd` (main.c lines 126-136): NULL path prints the expected-argument
message; a failing `chdir` prints `perror("dragonshell")` and leaves the
working directory alone.  Returns the new cwd and the printed diagnostics. -/
def cd (os : OS) (cwd : String) (path : Option String) : String × List String :=
  match path with
  | none => (cwd, ["dragonshell: Expected argument to \"cd\""])
  | some p =>
    match os.chdir cwd p with
    | some cwd2 => (cwd2, [])
    | none => (cwd, ["dragonshell"])

/-- The delimiter set `LSH_TOK_DELIM = " \t\r\n\a"` (main.c line 25). -/
def isDelim (c : Char) : Bool :=
  c = ' ' || c = '\t' || c = '\r' || c = '\n' || c = '\x07'

/-- Worker for `split_line`: walk the characters, `acc` holding the current
token reversed, emitting a token at each delimiter run's end. -/
def tokenizeAux : List Char → List Char → List String
  | [], acc => if acc = [] then [] else [String.mk acc.reverse]
  | c :: cs, acc =>
    if isDelim c then
      if acc = [] then tokenizeAux cs []
      else String.mk acc.reverse :: tokenizeAux cs []
    else tokenizeAux cs (c :: acc)

/-- `split_line` (main.c lines 79-112): `strtok` over `LSH_TOK_DELIM` yields
the non-empty chunks between delimiter runs. -/
def split_line (line : String) : List String :=
  tokenizeAux line.data []

/-- Locate the first `|` character: the characters before it and after it. -/
def breakAtPipe : List Char → Option (List Char × List Char)
  | [] => none
  | c :: cs =>
    if c = '|' then some ([], cs)
    else (breakAtPipe cs).map (fun p => (c :: p.1, p.2))

/-- `is_pipe` (main.c lines 259-270): `strstr(input, "|")` splits the raw line
at the first `|` into the command before it and everything after it. -/
def is_pipe (input : String) : Option (String × String) :=
  (breakAtPipe input.data).map (fun p => (String.mk p.1, String.mk p.2))

/-- What one child of `execute_pipe` does after its descriptor wiring
(main.c lines 304-310 for the writer, 326-332 for the reader): tokenize its
command string and `execvp`; on failure `perror("dragonshell")` then
`exit(EXIT_FAILURE)`. -/
def pipeChildExec (os : OS) (cmd : String) : ChildOutcome :=
  match (split_line cmd).head? with
  | none => .exited 1 ["dragonshell"]
  | some prog =>
    if os.execOk prog then .replaced (split_line cmd) none none
    else .exited 1 ["dragonshell"]

/-- The individual system calls of `execute_pipe` (main.c lines 285-345) that
decide descriptor lifetime and waiting. -/
inductive PipeOp where
  | createPipe
  | forkWriter
  | forkReader
  | closeRead
  | closeWrite
  | dupToStdout
  | dupToStdin
  | waitWriter
  | waitReader
deriving DecidableEq, BEq, Repr

/-- Operations of the first (writer) child of `execute_pipe`, main.c lines
300-302: close the read end, `dup2` the write end onto stdout, close the
now-duplicate write end. -/
def writer_child_ops : List PipeOp := [.closeRead, .dupToStdout, .closeWrite]

/-- Operations of the second (reader) child, main.c lines 322-324: close the
write end, `dup2` the read end onto stdin, close the duplicate read end. -/
def reader_child_ops : List PipeOp := [.closeWrite, .dupToStdin, .closeRead]

/-- The parent's own operation sequence in `execute_pipe` (main.c lines
290-344): create the pipe, fork both children, close both endpoints, then
`waitpid` each child. -/
def execute_pipe_parent_ops : List PipeOp :=
  [.createPipe, .forkWriter, .forkReader, .closeRead, .closeWrite,
   .waitWriter, .waitReader]

/-- Return time of `waitpid(p, NULL, 0)` issued at time `now` on a child that
terminates at time `term`: the call blocks until the child has terminated. -/
def waitReturn (now term : Nat) : Nat := max now term

/-- Time at which the parent of `execute_pipe` falls off the end, given the
termination times of its two children: `waitpid(p1)` then `waitpid(p2)`
(main.c lines 343-344). -/
def execute_pipe_return_time (t1 t2 : Nat) : Nat :=
  waitReturn (waitReturn 0 t1) t2

/-- Result of one iteration of the interpreter's main loop: either control
returns to the prompt with a new state, or the interpreter process exits. -/
inductive StepResult where
  | cont (s : ShellState) (waited : List Int) (printed : List String)
  | exited (status : Nat) (printed : List String) (killed : List Int)
deriving DecidableEq, Repr

/-- One iteration of the main read-eval loop (main.c lines 471-516), from the
parent process's point of view.  `line = none` models `getline` reporting
end-of-input, upon which `read_line` exits 0 (lines 49-54).  `pid` and `pid2`
are the pids `fork` hands back (`pid2` is only meaningful for a pipeline);
`ru_u`/`ru_s` are the `getrusage` second counts observed after a wait. -/
def shell_step (os : OS) (s : ShellState) (line : Option String)
    (pid pid2 ru_u ru_s : Int) : StepResult :=
  match line with
  | none => .exited 0 [] []
  | some input =>
    match is_pipe input with
    | some _ => .cont s [pid, pid2] []
    | none =>
      match split_line input with
      | [] => .cont s [] []
      | t0 :: rest =>
        if t0 = "cd" then
          .cont { s with cwd := (cd os s.cwd rest.head?).1 } []
            (cd os s.cwd rest.head?).2
        else if t0 = "pwd" then
          .cont s [] [s.cwd]
        else if t0 = "exit" then
          .exited 0 (exit_shell s ru_u ru_s).1 (exit_shell s ru_u ru_s).2
        else
          .cont (execute_command s pid (is_background_process (t0 :: rest)).2
                  ru_u ru_s).1
            (execute_command s pid (is_background_process (t0 :: rest)).2
                  ru_u ru_s).2.1
            (execute_command s pid (is_background_process (t0 :: rest)).2
                  ru_u ru_s).2.2

/-- A concrete OS oracle on which every `open` succeeds (descriptor 3 for
writing, 4 for reading), every program resolves, and every `chdir` fails. -/
def osAllOk : OS :=
  { openWrite := fun _ _ => some 3, openRead := fun _ => some 4,
    execOk := fun _ => true, chdir := fun _ _ => none }

/-- A concrete OS oracle on which every `execvp` fails and every `chdir`
fails; opens still succeed. -/
def osNoExec : OS :=
  { openWrite := fun _ _ => some 3, openRead := fun _ => some 4,
    execOk := fun _ => false, chdir := fun _ _ => none }

/-- If the first occurrence of `op` in `l` is at index `j`, then cutting `l`
at any index `i ≤ j` leaves a vector with no occurrence of `op` at all. -/
theorem firstIdx_take_eq_none (op : String) (l : List String) :
    ∀ i j : Nat, firstIdx op l = some j → i ≤ j →
      firstIdx op (l.take i) = none := by
  induction l with
  | nil => intro i j h _; simp [firstIdx] at h
  | cons a rest ih =>
    intro i j h hij
    by_cases ha : a = op
    · simp only [firstIdx, if_pos ha, Option.some.injEq] at h
      have hi : i = 0 := by omega
      simp [hi, firstIdx]
    · simp only [firstIdx, if_neg ha, Option.map_eq_some'] at h
      obtain ⟨j2, hj2, hj⟩ := h
      cases i with
      | zero => simp [firstIdx]
      | succ k =>
        have hk : k ≤ j2 := by omega
        simp [List.take_succ_cons, firstIdx, ha, ih k j2 hj2 hk]

/-- C1: the shared slot `child_pid` is supposed to move from -1 to the
foreground child's pid right before the blocking `waitpid` and back to -1
after the reap, so that `sigint_handler` forwards SIGINT to the child's
process group.  In the code `child_pid` is written nowhere after its
initialisation: the foreground path of `execute_command` leaves it untouched,
so after (and during) any foreground launch from the start state the handler
still takes the no-child branch and merely re-prints the prompt. -/
theorem claim_C1_bug (s : ShellState) (pid ru_u ru_s : Int) :
    (execute_command s pid false ru_u ru_s).1.child_pid = s.child_pid ∧
    sigint_handler ((execute_command (initState "/") 1234 false 7 7).1) =
      .prompt := by
  constructor
  · unfold execute_command
    split <;> simp
  · decide

/-- C2: the background branch of `execute_command` only prints the pid — it
never stores it into `bg_processes` and never increments `bg_count` — so
after backgrounding a job from the start state, `exit_shell`'s SIGTERM loop
(which signals the slots different from -1) signals the empty list of pids:
the registered background job never receives SIGTERM. -/
theorem claim_C2_bug (s : ShellState) (pid ru_u ru_s : Int) :
    (execute_command s pid true ru_u ru_s).1.bg_processes = s.bg_processes ∧
    (execute_command s pid true ru_u ru_s).1.bg_count = s.bg_count ∧
    (exit_shell ((execute_command (initState "/") 77 true 0 0).1) 0 0).2 =
      [] := by
  refine ⟨?_, ?_, by decide⟩ <;> (unfold execute_command; split <;> simp)

/-- C5: in `execute_pipe` the writer child closes the pipe's read end and the
reader child closes its write end; the parent closes both of its endpoints
after forking both children and before its first `waitpid`; and whatever the
two children's termination times are (either completion order), the parent
does not fall off the end of `execute_pipe` before both have terminated. -/
theorem claim_C5 (t1 t2 : Nat) :
    PipeOp.closeRead ∈ writer_child_ops ∧
    PipeOp.closeWrite ∈ reader_child_ops ∧
    execute_pipe_parent_ops.indexOf PipeOp.forkReader <
      execute_pipe_parent_ops.indexOf PipeOp.closeRead ∧
    execute_pipe_parent_ops.indexOf PipeOp.forkReader <
      execute_pipe_parent_ops.indexOf PipeOp.closeWrite ∧
    execute_pipe_parent_ops.indexOf PipeOp.closeRead <
      execute_pipe_parent_ops.indexOf PipeOp.waitWriter ∧
    execute_pipe_parent_ops.indexOf PipeOp.closeWrite <
      execute_pipe_parent_ops.indexOf PipeOp.waitWriter ∧
    t1 ≤ execute_pipe_return_time t1 t2 ∧
    t2 ≤ execute_pipe_return_time t1 t2 := by
  refine ⟨by simp [writer_child_ops], by simp [reader_child_ops], by decide,
    by decide, by decide, by decide, ?_, ?_⟩ <;>
      simp [execute_pipe_return_time, waitReturn]

/-- C7: for a foreground launch (fork returned a positive pid, background
flag clear) the parent passes exactly that pid to `waitpid` — blocking until
the child terminates — and, the `getrusage` second counts being non-negative,
both running totals afterwards are at least their previous values. -/
theorem claim_C7 (s : ShellState) (pid ru_u ru_s : Int)
    (hpid : 0 < pid) (hu : 0 ≤ ru_u) (hs : 0 ≤ ru_s) :
    (execute_command s pid false ru_u ru_s).2.1 = [pid] ∧
    s.total_user_time ≤
      (execute_command s pid false ru_u ru_s).1.total_user_time ∧
    s.total_sys_time ≤
      (execute_command s pid false ru_u ru_s).1.total_sys_time := by
  refine ⟨?_, ?_, ?_⟩ <;> simp [execute_command, hpid] <;> omega

/-- Witness for C7 at a concrete state and reading. -/
theorem claim_C7_witness :
    (execute_command (initState "/") 5 false 2 1).2.1 = [5] ∧
    (initState "/").total_user_time ≤
      (execute_command (initState "/") 5 false 2 1).1.total_user_time ∧
    (initState "/").total_sys_time ≤
      (execute_command (initState "/") 5 false 2 1).1.total_sys_time :=
  claim_C7 (initState "/") 5 2 1 (by decide) (by decide) (by decide)

/-- C10: `is_background_process` marks the command as background at the
first `&` found anywhere in the vector — not only a trailing one — and cuts
the vector there, so every argument after the first `&` is dropped. -/
theorem claim_C10 (args : List String) (i : Nat)
    (h : firstIdx "&" args = some i) :
    is_background_process args = (args.take i, true) := by
  simp [is_background_process, h]

/-- Witness for C10: an interior `&` backgrounds the command and drops the
arguments after it. -/
theorem claim_C10_witness :
    is_background_process ["ls", "&", "-l", "x"] = (["ls"], true) := by
  have h := claim_C10 ["ls", "&", "-l", "x"] 1 (by decide)
  simpa using h

/-- C3 counterexample: on `cmd > out tail` the claim says the final argument
vector handed to execution keeps the argument after the filename — i.e.
`["cmd", "tail"]` — but the child writes NULL at the `>` position, so `execvp`
receives only `["cmd"]`. -/
theorem claim_C3_counterexample :
    childExec osAllOk ["cmd", ">", "out", "tail"] =
      .replaced ["cmd"] none (some 3) ∧
    ["cmd"] ≠ ["cmd", "tail"] :=
  ⟨by decide, by decide⟩

/-- C3 amended: when the first `>` (resp. `<`) sits at index `i` with a
filename after it and the open — write/create/truncate with mode `0644` for
`>`, read-only for `<` — succeeds, the resolver cuts the vector at the
operator's position: the operator, the filename, and every argument after
them are absent from the resulting vector. -/
theorem claim_C3_amended (os : OS) (args : List String) (i : Nat)
    (f : String) (fd : Nat) :
    (firstIdx ">" args = some i → args[i + 1]? = some f →
      os.openWrite f 0o644 = some fd →
      resolveOut os args = .ok (args.take i, some fd)) ∧
    (firstIdx "<" args = some i → args[i + 1]? = some f →
      os.openRead f = some fd →
      resolveIn os args = .ok (args.take i, some fd)) := by
  constructor <;> intro h1 h2 h3 <;>
    simp [resolveOut, resolveIn, h1, h2, h3]

/-- Witness for the amended C3 at concrete vectors, one per operator. -/
theorem claim_C3_witness :
    resolveOut osAllOk ["cmd", ">", "out", "tail"] = .ok (["cmd"], some 3) ∧
    resolveIn osAllOk ["cmd", "<", "infile", "tail"] =
      .ok (["cmd"], some 4) := by
  constructor
  · have h := (claim_C3_amended osAllOk ["cmd", ">", "out", "tail"] 1
      "out" 3).1 (by decide) (by decide) rfl
    simpa using h
  · have h := (claim_C3_amended osAllOk ["cmd", "<", "infile", "tail"] 1
      "infile" 4).2 (by decide) (by decide) rfl
    simpa using h

/-- C4 counterexample: `cmd > x <` ends in a dangling redirection operator,
so per the claim the command-constructing process should exit without running
the command; but the output scan cuts the vector at `>` before the input scan
runs, the dangling `<` is never examined, and the child goes on to replace
its image — the command runs. -/
theorem claim_C4_counterexample :
    ["cmd", ">", "x", "<"].getLast? = some "<" ∧
    childExec osAllOk ["cmd", ">", "x", "<"] =
      .replaced ["cmd"] none (some 3) :=
  ⟨by decide, by decide⟩

/-- C4 amended: when the dangling trailing operator is the one its scan
honors — the first `>` of the vector is its last token, or there is no `>`
and the first `<` is its last token — the filename read is the vector's NULL
terminator (modelled: `args[i+1]? = none`, no slot past the terminator
is touched), the `open` on it fails, and the child exits with status 1
without running the command. -/
theorem claim_C4_amended (os : OS) (args : List String) (i : Nat)
    (h : (firstIdx ">" args = some i ∧ args.length = i + 1) ∨
         (firstIdx ">" args = none ∧ firstIdx "<" args = some i ∧
           args.length = i + 1)) :
    childExec os args = .exited 1 ["dragonshell"] := by
  have hget : args[i + 1]? = none :=
    List.getElem?_eq_none (by rcases h with ⟨_, h2⟩ | ⟨_, _, h2⟩ <;> omega)
  rcases h with ⟨h1, _⟩ | ⟨h1, h2, _⟩
  · simp [childExec, childResolve, resolveOut, h1, hget]
  · simp [childExec, childResolve, resolveOut, resolveIn, h1, h2, hget]

/-- Witness for the amended C4: a bare trailing `>`. -/
theorem claim_C4_witness :
    childExec osAllOk ["cmd", ">"] = .exited 1 ["dragonshell"] :=
  claim_C4_amended osAllOk ["cmd", ">"] 1 (Or.inl ⟨by decide, by decide⟩)

/-- C9: when a `>` precedes a `<` in the vector, the output scan cuts the
vector at the `>` position before the input scan runs, so the input scan
stops there and the `<` is never honored: the child's image is replaced with
output redirected (`outfd` bound) but stdin untouched (`none`). -/
theorem claim_C9 (os : OS) (args : List String) (i j : Nat)
    (f prog : String) (fd : Nat)
    (hgt : firstIdx ">" args = some i)
    (hlt : firstIdx "<" args = some j)
    (hij : i < j)
    (hf : args[i + 1]? = some f)
    (hopen : os.openWrite f 0o644 = some fd)
    (hprog : (args.take i).head? = some prog)
    (hexec : os.execOk prog = true) :
    childExec os args = .replaced (args.take i) none (some fd) := by
  have hno : firstIdx "<" (args.take i) = none :=
    firstIdx_take_eq_none "<" args i j hlt (le_of_lt hij)
  simp [childExec, childResolve, resolveOut, resolveIn, hgt, hf, hopen, hno,
    hprog, hexec]

/-- Witness for C9: `cmd > out < infile` runs `cmd` with stdout bound to the
opened descriptor and stdin left alone. -/
theorem claim_C9_witness :
    childExec osAllOk ["cmd", ">", "out", "<", "infile"] =
      .replaced ["cmd"] none (some 3) := by
  have h := claim_C9 osAllOk ["cmd", ">", "out", "<", "infile"] 1 3
    "out" "cmd" 3 (by decide) (by decide) (by decide) (by decide) rfl
    (by decide) rfl
  simpa using h

/-- C6: a child whose `execvp` fails (program not found / not executable)
prints an error naming the shell and exits with the non-zero status 1 — in
the single-command child and in a pipeline child alike — and the interpreter
itself survives: any input line whose first token is not `exit` brings the
main loop back to the prompt. -/
theorem claim_C6 (os : OS) (args argv : List String) (infd outfd : Option Nat)
    (prog cmd prog2 input : String) (s : ShellState)
    (pid pid2 ru_u ru_s : Int)
    (hres : childResolve os args = .ok (argv, infd, outfd))
    (hprog : argv.head? = some prog)
    (hfail : os.execOk prog = false)
    (hprog2 : (split_line cmd).head? = some prog2)
    (hfail2 : os.execOk prog2 = false)
    (hnotexit : (split_line input).head? ≠ some "exit") :
    childExec os args = .exited 1 ["dragonshell"] ∧
    pipeChildExec os cmd = .exited 1 ["dragonshell"] ∧
    ∃ s2 w out, shell_step os s (some input) pid pid2 ru_u ru_s =
      .cont s2 w out := by
  refine ⟨by simp [childExec, hres, hprog, hfail],
          by simp [pipeChildExec, hprog2, hfail2], ?_⟩
  simp only [shell_step]
  cases hp : is_pipe input with
  | some p => exact ⟨s, [pid, pid2], [], rfl⟩
  | none =>
    cases hs : split_line input with
    | nil => exact ⟨s, [], [], rfl⟩
    | cons t0 rest =>
      rw [hs] at hnotexit
      simp only [List.head?_cons, ne_eq, Option.some.injEq] at hnotexit
      dsimp only
      split_ifs with hcd hpw
      · exact ⟨_, _, _, rfl⟩
      · exact ⟨_, _, _, rfl⟩
      · exact ⟨_, _, _, rfl⟩

/-- Witness for C6: on an OS oracle where no program resolves, `foo` fails in
the child with the shell-named error and the session steps on. -/
theorem claim_C6_witness :
    childExec osNoExec ["foo"] = .exited 1 ["dragonshell"] ∧
    pipeChildExec osNoExec "bar" = .exited 1 ["dragonshell"] ∧
    ∃ s2 w out, shell_step osNoExec (initState "/") (some "foo") 5 6 0 0 =
      .cont s2 w out :=
  claim_C6 osNoExec ["foo"] ["foo"] none none "foo" "bar" "bar" "foo"
    (initState "/") 5 6 0 0 rfl rfl rfl (by decide) rfl (by decide)

/-- C8: `cd` with no argument prints a user-visible message and changes
nothing; `cd` to a path on which `chdir` fails prints a diagnostic naming the
shell and leaves the working directory unchanged; and a `cd /nonexistent`
input line brings the main loop back to the prompt rather than exiting. -/
theorem claim_C8 (os : OS) (cwd p : String) (s : ShellState)
    (pid pid2 ru_u ru_s : Int) (hfail : os.chdir cwd p = none) :
    cd os cwd none = (cwd, ["dragonshell: Expected argument to \"cd\""]) ∧
    cd os cwd (some p) = (cwd, ["dragonshell"]) ∧
    ∃ s2 out, shell_step os s (some "cd /nonexistent") pid pid2 ru_u ru_s =
      .cont s2 [] out := by
  exact ⟨rfl, by simp [cd, hfail], ⟨_, _, rfl⟩⟩

/-- Witness for C8 on a concrete OS oracle whose `chdir` always fails. -/
theorem claim_C8_witness :
    cd osAllOk "/" none = ("/", ["dragonshell: Expected argument to \"cd\""]) ∧
    cd osAllOk "/" (some "/nonexistent") = ("/", ["dragonshell"]) ∧
    ∃ s2 out, shell_step osAllOk (initState "/") (some "cd /nonexistent")
      5 6 0 0 = .cont s2 [] out :=
  claim_C8 osAllOk "/" "/nonexistent" (initState "/") 5 6 0 0 rfl

end Dragonshell
